import Mathlib

/-!
# LegalBot frontend — verification of the spec claims

Shallow embedding of the LegalBot Vue frontend components
(`DocumentProcessor.vue`, `Chat.vue`, `App.vue`, `Sidebar.vue`).
Methods become pure state-transition functions; the HTTP requests a
method issues are returned explicitly; the asynchronous response
handling becomes a separate "finish" function taking the parsed
response, mirroring the `try { await ... } catch { ... } finally { ... }`
split of the source.  JS strings are Lean `String`s; the JS string
operations used by the components (`trim`, `toLowerCase`,
`split('.')`, `endsWith`) are modelled character-list-wise below.
Timestamps (`new Date()`) are modelled as opaque strings supplied by
the caller; real wall-clock time is irrelevant to every claim.
-/

namespace LegalBot

/-- JS whitespace characters relevant to `String.prototype.trim`
(ASCII subset; the components only ever meet these). -/
def isJsWhitespace (c : Char) : Bool :=
  c == ' ' || c == '\t' || c == '\n' || c == '\r' || c == '\x0b' || c == '\x0c'

/-- JS `str.trim()`: strip leading and trailing whitespace. -/
def trimJs (s : String) : String :=
  String.mk (((s.data.dropWhile isJsWhitespace).reverse.dropWhile isJsWhitespace).reverse)

/-- ASCII lowercasing of one character, as JS `toLowerCase` acts on the
ASCII range (the only range the validation logic of the source cares about). -/
def toLowerChar (c : Char) : Char :=
  if 'A' ≤ c && c ≤ 'Z' then Char.ofNat (c.toNat + 32) else c

/-- JS `str.toLowerCase()` (ASCII model). -/
def toLowerStr (s : String) : String :=
  String.mk (s.data.map toLowerChar)

/-- JS `str.endsWith(suffix)`. -/
def endsWithStr (s suffix : String) : Bool :=
  suffix.data.isSuffixOf s.data

/-- JS `str.split('.')` on the character list: splits at every dot,
keeping empty segments, and yields `[""]` on the empty string. -/
def splitDot : List Char → List (List Char)
  | [] => [[]]
  | c :: rest =>
    let r := splitDot rest
    if c == '.' then [] :: r
    else
      match r with
      | [] => [[c]]
      | h :: t => (c :: h) :: t

/-- A browser `File` object as the components see it: name, declared
MIME type, size in bytes. -/
structure JsFile where
  name : String
  type : String
  size : Nat
deriving DecidableEq, Repr

/-! ## DocumentProcessor.vue -/

/-- The `uploadStatus` object: `{ type, message }` with
`type ∈ {success, error, info}`. -/
structure UploadStatus where
  type : String
  message : String
deriving DecidableEq, Repr

/-- An entry of `processedDocuments` as pushed by `uploadFiles`:
`{ name, fileId, processedAt }`. -/
structure ProcessedDoc where
  name : String
  fileId : Option String
  processedAt : String
deriving DecidableEq, Repr

/-- The reactive state of `DocumentProcessor` (`data()`), minus the
`$refs` DOM handles. -/
structure DPState where
  uploadedFiles : List JsFile
  isDragging : Bool
  uploading : Bool
  uploadStatus : Option UploadStatus
  processedDocuments : List ProcessedDoc
  apiUrl : String
deriving DecidableEq, Repr

/-- `data()` of DocumentProcessor; `apiUrl` defaults to `/api` when the
build-time environment variable is unset. -/
def initDPState : DPState :=
  { uploadedFiles := []
    isDragging := false
    uploading := false
    uploadStatus := none
    processedDocuments := []
    apiUrl := "/api" }

/-- `showStatus(type, message)` (the 5-second auto-clear of success
messages is a timer side effect outside the state model). -/
def showStatus (s : DPState) (type message : String) : DPState :=
  { s with uploadStatus := some ⟨type, message⟩ }

/-- The extension computed by `addFiles`:
`'.' + file.name.split('.').pop().toLowerCase()`. -/
def extensionOf (name : String) : String :=
  "." ++ toLowerStr (String.mk (((splitDot name.data).getLast?).getD []))

/-- The per-file acceptance test of `addFiles`:
`file.type === allowedType || extension === allowedExtension` with
`allowedType = 'application/pdf'` and `allowedExtension = '.pdf'`. -/
def isValidPdfFile (f : JsFile) : Bool :=
  f.type == "application/pdf" || extensionOf f.name == ".pdf"

/-- The duplicate test of `addFiles`:
`this.uploadedFiles.some(f => f.name === file.name && f.size === file.size)`;
the file is pushed only when no such entry exists yet.  The check runs
against the list as already extended by earlier files of the same call,
exactly as the JS `forEach` over the live array does. -/
def pushUnlessDuplicate (acc : List JsFile) (f : JsFile) : List JsFile :=
  if acc.any (fun g => g.name == f.name && g.size == f.size) then acc
  else acc ++ [f]

/-- `addFiles(files)`. -/
def addFiles (s : DPState) (files : List JsFile) : DPState :=
  let validFiles := files.filter isValidPdfFile
  if validFiles.length == 0 && files.length > 0 then
    showStatus s "error" "Por favor, selecciona solo archivos PDF"
  else
    let s1 :=
      if validFiles.length < files.length then
        showStatus s "info"
          (toString (files.length - validFiles.length) ++
            " archivo(s) rechazado(s). Solo se aceptan archivos PDF")
      else s
    let s2 := { s1 with uploadedFiles := validFiles.foldl pushUnlessDuplicate s1.uploadedFiles }
    if validFiles.length > 0 then
      showStatus s2 "info" (toString validFiles.length ++ " archivo(s) agregado(s)")
    else s2

/-- The drop filter of `handleDrop`:
`file.type === 'application/pdf' || file.name.toLowerCase().endsWith('.pdf')`. -/
def dropFilter (f : JsFile) : Bool :=
  f.type == "application/pdf" || endsWithStr (toLowerStr f.name) (".pdf")

/-- `handleDrop(event)`: clears the drag flag, filters the dropped
files, and delegates to `addFiles`. -/
def handleDrop (s : DPState) (files : List JsFile) : DPState :=
  addFiles { s with isDragging := false } (files.filter dropFilter)

/-- `removeFile(index)`: splice out one entry; the status banner is
cleared when the list becomes empty. -/
def removeFile (s : DPState) (index : Nat) : DPState :=
  let files := s.uploadedFiles.eraseIdx index
  { s with
    uploadedFiles := files
    uploadStatus := if files.length == 0 then none else s.uploadStatus }

/-- `clearFiles()`. -/
def clearFiles (s : DPState) : DPState :=
  { s with uploadedFiles := [], uploadStatus := none }

/-- One `formData.append(field, file)` entry of the multipart body. -/
structure FormEntry where
  field : String
  file : JsFile
deriving DecidableEq, Repr

/-- The multipart POST issued by `uploadFiles`. -/
structure UploadRequest where
  endpoint : String
  formData : List FormEntry
deriving DecidableEq, Repr

/-- The synchronous front half of `uploadFiles()`: the guard, the state
mutations before `await axios.post`, and the request it sends.  Returns
the state unchanged with no request when the guard
`this.uploadedFiles.length === 0 || this.uploading` fires. -/
def uploadFilesRequest (s : DPState) : DPState × Option UploadRequest :=
  if s.uploadedFiles.length == 0 || s.uploading then (s, none)
  else
    let s1 := { s with uploading := true, uploadStatus := none }
    let formData := s.uploadedFiles.map (fun f => FormEntry.mk "files" f)
    let endpoint :=
      if s.uploadedFiles.length == 1 then s.apiUrl ++ "/upload"
      else s.apiUrl ++ "/upload/multiple"
    (s1, some ⟨endpoint, formData⟩)

/-- One per-file outcome object of the upload response
(`{success, filename, file_id, uploaded_at}`); `uploaded_at` is `none`
when the backend omitted it, in which case the code substitutes
`new Date()`. -/
structure UploadResult where
  success : Bool
  filename : String
  file_id : Option String
  uploaded_at : Option String
deriving DecidableEq, Repr

/-- The `{name, fileId, processedAt}` record pushed for a successful
result; `now` stands for `new Date()`. -/
def resultToDoc (now : String) (r : UploadResult) : ProcessedDoc :=
  { name := r.filename, fileId := r.file_id, processedAt := r.uploaded_at.getD now }

/-- Accumulator of the `results.forEach` loop of `uploadFiles`. -/
structure MultiAcc where
  uploadedDocs : List ProcessedDoc
  successCount : Nat
  failedCount : Nat
deriving DecidableEq, Repr

/-- One iteration of the `results.forEach` loop. -/
def multiStep (now : String) (acc : MultiAcc) (r : UploadResult) : MultiAcc :=
  if r.success then
    { acc with
      uploadedDocs := acc.uploadedDocs ++ [resultToDoc now r]
      successCount := acc.successCount + 1 }
  else
    { acc with failedCount := acc.failedCount + 1 }

/-- The outcome-message step of `uploadFiles` after the counts are in. -/
def uploadOutcomeStatus (s : DPState) (successCount failedCount : Nat) : DPState :=
  if successCount > 0 && failedCount == 0 then
    showStatus s "success"
      ("¡" ++ toString successCount ++ " documento(s) subido(s) exitosamente!")
  else if successCount > 0 && failedCount > 0 then
    showStatus s "info"
      (toString successCount ++ " documento(s) subido(s), " ++
        toString failedCount ++ " fallido(s)")
  else
    showStatus s "error"
      "No se pudo subir ningún documento. Verifica los archivos e intenta de nuevo."

/-- The response-handling back half of `uploadFiles` for the
multi-file branch (an array of per-file results): the `forEach`
aggregation, the push into `processedDocuments`, the status message,
the conditional `clearFiles`, and the `finally { uploading = false }`. -/
def uploadFilesHandleMulti (s : DPState) (now : String) (results : List UploadResult) :
    DPState :=
  let acc := results.foldl (multiStep now) ⟨[], 0, 0⟩
  let s1 :=
    if acc.uploadedDocs.length > 0 then
      { s with processedDocuments := s.processedDocuments ++ acc.uploadedDocs }
    else s
  let s2 := uploadOutcomeStatus s1 acc.successCount acc.failedCount
  let s3 := if acc.failedCount == 0 then clearFiles s2 else s2
  { s3 with uploading := false }

/-- The response-handling back half of `uploadFiles` for the
single-file branch (`this.uploadedFiles.length === 1`). -/
def uploadFilesHandleSingle (s : DPState) (now : String) (data : UploadResult) : DPState :=
  let acc : MultiAcc := if data.success then ⟨[resultToDoc now data], 1, 0⟩ else ⟨[], 0, 1⟩
  let s1 :=
    if acc.uploadedDocs.length > 0 then
      { s with processedDocuments := s.processedDocuments ++ acc.uploadedDocs }
    else s
  let s2 := uploadOutcomeStatus s1 acc.successCount acc.failedCount
  let s3 := if acc.failedCount == 0 then clearFiles s2 else s2
  { s3 with uploading := false }

/-- The `catch` branch of `uploadFiles`: one error status keyed on the
HTTP status (`detail` is empty when the backend sent none), then
`finally { uploading = false }`. -/
def uploadFilesHandleError (s : DPState) (status : Nat) (detail : String) : DPState :=
  let message :=
    if status == 400 then
      (if detail != "" then detail else
        "Error de validación. Verifica que los archivos sean del tipo correcto y no excedan 50MB.")
    else if status == 404 then
      "El endpoint de carga de documentos aún no está disponible. Asegúrate de que el backend esté ejecutándose."
    else if status == 413 then
      "Archivo demasiado grande. El tamaño máximo permitido es 50MB por archivo."
    else
      (if detail != "" then detail else
        "Error al procesar los documentos. Por favor, intenta de nuevo.")
  { showStatus s "error" message with uploading := false }

/-! ## Chat.vue -/

/-- One source of a chat answer
(`{chunk_id, file_id, filename, text_preview, relevance_score, chunk_index}`).
The relevance score is a rational (the JS number is only stored and
displayed, never computed with, so exact rationals model it faithfully). -/
structure Source where
  chunk_id : String
  file_id : String
  filename : String
  text_preview : String
  relevance_score : Rat
  chunk_index : Nat
deriving DecidableEq, Repr

/-- One entry of `this.messages`
(`{type, content, sources?, modelUsed?, timestamp}`); the timestamp is
wall-clock display data and is not modelled. -/
structure Message where
  type : String
  content : String
  sources : List Source := []
  modelUsed : Option String := none
deriving DecidableEq, Repr

/-- The reactive state of `Chat` (`data()`). -/
structure ChatState where
  messages : List Message
  currentMessage : String
  loading : Bool
  apiUrl : String
  selectedFileId : Option String
  model : String
  maxChunks : Nat
  temperature : Rat
deriving DecidableEq, Repr

/-- The welcome message pushed by `mounted()`. -/
def welcomeMessage : Message :=
  { type := "assistant"
    content := "¡Hola! Soy LegalBot. Puedo ayudarte a entender documentos legales en lenguaje sencillo. ¿En qué puedo ayudarte?" }

/-- `data()` of Chat followed by `mounted()`: the defaults
`model = mistral:7b-instruct`, `maxChunks = 5`, `temperature = 0.7`,
no document filter, and the welcome message already pushed. -/
def initChatState : ChatState :=
  { messages := [welcomeMessage]
    currentMessage := ""
    loading := false
    apiUrl := "/api"
    selectedFileId := none
    model := "mistral:7b-instruct"
    maxChunks := 5
    temperature := 7/10 }

/-- The JSON body POSTed to `{apiUrl}/chat`; `file_id := none` means
the field is absent from the object. -/
structure ChatRequestBody where
  question : String
  model : String
  max_chunks : Nat
  temperature : Rat
  file_id : Option String
deriving DecidableEq, Repr

/-- `requestBody` construction of `sendMessage`: the four always-present
fields, then `file_id` added only under the truthiness test
`if (this.selectedFileId)` (absent or empty string both fail it). -/
def chatRequestBody (s : ChatState) (userMessage : String) : ChatRequestBody :=
  let base : ChatRequestBody :=
    { question := userMessage
      model := s.model
      max_chunks := s.maxChunks
      temperature := s.temperature
      file_id := none }
  match s.selectedFileId with
  | some fid => if fid != "" then { base with file_id := some fid } else base
  | none => base

/-- The user message pushed by `sendMessage` before the request. -/
def mkUserMessage (q : String) : Message :=
  { type := "user", content := q }

/-- The synchronous front half of `sendMessage()`: the guard
`if (!this.currentMessage.trim() || this.loading) return`, the state
mutations before `await axios.post`, and the request body it sends. -/
def sendMessageStart (s : ChatState) : ChatState × Option ChatRequestBody :=
  if trimJs s.currentMessage == "" || s.loading then (s, none)
  else
    let userMessage := trimJs s.currentMessage
    let s1 :=
      { s with
        currentMessage := ""
        messages := s.messages ++ [mkUserMessage userMessage]
        loading := true }
    (s1, some (chatRequestBody s1 userMessage))

/-- The parsed success payload of `POST /chat`
(`{answer, sources?, model_used}`); a missing or empty `answer` is the
empty string (both are falsy under the `||` of the source), and
`sources := none` models an absent field (an empty array is truthy in
JS, so `response.data.sources || []` keeps it). -/
structure ChatResponseData where
  answer : String
  sources : Option (List Source)
  model_used : Option String
deriving DecidableEq, Repr

/-- The assistant message assembled from a successful response:
`content = answer || 'Respuesta recibida'`,
`sources = response.data.sources || []`. -/
def mkAssistantMessage (resp : ChatResponseData) : Message :=
  { type := "assistant"
    content := if resp.answer == "" then "Respuesta recibida" else resp.answer
    sources := resp.sources.getD []
    modelUsed := resp.model_used }

/-- The success back half of `sendMessage`: push the assistant message,
then `finally { loading = false }`. -/
def sendMessageSuccess (s : ChatState) (resp : ChatResponseData) : ChatState :=
  { s with messages := s.messages ++ [mkAssistantMessage resp], loading := false }

/-- The error-message selection of the `catch` branch when
`error.response` exists: `detail = error.response.data?.detail || ''`,
then one explanatory default per status when `detail` is empty. -/
def chatErrorMessage (status : Nat) (detail : String) : String :=
  if status == 404 then
    (if detail != "" then detail else
      "No se encontraron documentos relevantes. Asegúrate de haber subido y procesado documentos.")
  else if status == 400 then
    (if detail != "" then detail else
      "Error en la solicitud. Verifica que el documento esté procesado.")
  else if status == 503 then
    (if detail != "" then detail else
      "El modelo no está disponible. Verifica que esté instalado en Ollama.")
  else
    (if detail != "" then detail else
      "Error al procesar tu mensaje. Por favor, intenta de nuevo.")

/-- The error message object pushed by the `catch` branch. -/
def mkChatErrorMessage (status : Nat) (detail : String) : Message :=
  { type := "error", content := chatErrorMessage status detail }

/-- The HTTP-error back half of `sendMessage` (`error.response` set):
push one error message, then `finally { loading = false }`. -/
def sendMessageHttpError (s : ChatState) (status : Nat) (detail : String) : ChatState :=
  { s with messages := s.messages ++ [mkChatErrorMessage status detail], loading := false }

/-- The network-error back half of `sendMessage`
(`error.code === 'ERR_NETWORK'`). -/
def sendMessageNetworkError (s : ChatState) : ChatState :=
  { s with
    messages := s.messages ++
      [{ type := "error"
         content := "Error de conexión. Verifica que el backend esté ejecutándose." }]
    loading := false }

/-- How one call of `sendMessage` resolves once a request was issued. -/
inductive ChatOutcome where
  | success (resp : ChatResponseData)
  | httpError (status : Nat) (detail : String)
  | networkError
deriving Repr

/-- One whole `sendMessage` call: guard, request, then the handler
matching the outcome. -/
def sendMessageStep (s : ChatState) (o : ChatOutcome) : ChatState :=
  match sendMessageStart s with
  | (s1, none) => s1
  | (s1, some _) =>
    match o with
    | .success resp => sendMessageSuccess s1 resp
    | .httpError status detail => sendMessageHttpError s1 status detail
    | .networkError => sendMessageNetworkError s1

/-- The states the Chat component can reach: the mounted initial state,
typing into the textarea (`v-model` on `currentMessage`), and complete
`sendMessage` calls with any outcome. -/
inductive ChatReachable : ChatState → Prop
  | init : ChatReachable initChatState
  | type (s : ChatState) (text : String) (h : ChatReachable s) :
      ChatReachable { s with currentMessage := text }
  | step (s : ChatState) (o : ChatOutcome) (h : ChatReachable s) :
      ChatReachable (sendMessageStep s o)

/-- The data of one rendered source line of the template:
the filename and the relevance score shown next to it. -/
def renderSourceLine (src : Source) : String × Rat :=
  (src.filename, src.relevance_score)

/-- The source lines the template renders for one message
(`v-for over message.sources`). -/
def renderedSources (m : Message) : List (String × Rat) :=
  m.sources.map renderSourceLine

/-! ## App.vue and Sidebar.vue -/

/-- The two `change-view` payloads the Sidebar template can emit
(one per nav button). -/
def sidebarPayloads : List String := ["chat", "documents"]

/-- `changeView(view)` of App: store the payload verbatim. -/
def changeView (_currentView payload : String) : String := payload

/-- App state `currentView` starts as `chat`. -/
def initialCurrentView : String := "chat"

/-- Whether the template renders `<Chat v-if="currentView === 'chat'">`. -/
def rendersChat (currentView : String) : Bool := currentView == "chat"

/-- Whether the template renders
`<DocumentProcessor v-if="currentView === 'documents'">`. -/
def rendersDocuments (currentView : String) : Bool := currentView == "documents"

/-- The values `currentView` can reach: the initial value, then any
sequence of `change-view` events the Sidebar can emit. -/
inductive AppReachable : String → Prop
  | init : AppReachable initialCurrentView
  | change (v p : String) (h : AppReachable v) (hp : p ∈ sidebarPayloads) :
      AppReachable (changeView v p)

/-! ## Helper lemmas -/

theorem mem_pushUnlessDuplicate {acc : List JsFile} {g f : JsFile}
    (h : g ∈ pushUnlessDuplicate acc f) : g ∈ acc ∨ g = f := by
  unfold pushUnlessDuplicate at h
  split at h
  · exact Or.inl h
  · rcases List.mem_append.mp h with h1 | h1
    · exact Or.inl h1
    · exact Or.inr (List.mem_singleton.mp h1)

theorem mem_foldl_pushUnlessDuplicate (l : List JsFile) :
    ∀ (acc : List JsFile) (g : JsFile),
      g ∈ l.foldl pushUnlessDuplicate acc → g ∈ acc ∨ g ∈ l := by
  induction l with
  | nil => intro acc g h; exact Or.inl h
  | cons x xs ih =>
    intro acc g h
    rcases ih (pushUnlessDuplicate acc x) g h with h1 | h1
    · rcases mem_pushUnlessDuplicate h1 with h2 | h2
      · exact Or.inl h2
      · exact Or.inr (by simp [h2])
    · exact Or.inr (List.mem_cons_of_mem _ h1)

/-- `addFiles` either leaves the pending list alone (rejection or empty
call) or replaces it by the dedup-fold of the valid files over it. -/
theorem addFiles_uploadedFiles (s : DPState) (files : List JsFile) :
    (addFiles s files).uploadedFiles = s.uploadedFiles ∨
    (addFiles s files).uploadedFiles
      = (files.filter isValidPdfFile).foldl pushUnlessDuplicate s.uploadedFiles := by
  simp only [addFiles, showStatus]
  split
  · exact Or.inl rfl
  · refine Or.inr ?_
    split <;> split <;> rfl

/-! ## Claims -/

/-- The PDF judgment in the words of the claim and the spec: the
declared MIME type `application/pdf`, with the lowercase filename
extension `.pdf` as fallback.  Written from the spec (not the source)
for comparison with `isValidPdfFile`, the test the source applies. -/
def specPdfJudgment (f : JsFile) : Bool :=
  f.type == "application/pdf" || endsWithStr (toLowerStr f.name) (".pdf")

/-- Claim C1, counterexample: a file named just `pdf` (no dot in the
name, hence no `.pdf` extension) with a non-PDF MIME type is not a PDF
under the claimed judgment, yet `addFiles` accepts it into the pending
list, because `'.' + name.split('.').pop()` turns the whole dot-free
name into the extension. -/
theorem claim_C1_counterexample :
    specPdfJudgment ⟨"pdf", "text/plain", 7⟩ = false ∧
    (addFiles initDPState [⟨"pdf", "text/plain", 7⟩]).uploadedFiles
      = [⟨"pdf", "text/plain", 7⟩] := by
  constructor <;> decide

/-- Claim C1 as amended: a file is accepted into the pending list only
if it passes the test of the source — MIME type `application/pdf`, or
fallback: a dot prepended to the lowercased last dot-separated segment
of the name equals `.pdf` (which accepts names ending in `.pdf`
case-insensitively and also a dot-free name equal to `pdf`); and when a
nonempty file list contains no valid file, an error status is shown and
the pending list is unchanged. -/
theorem claim_C1_amended (s : DPState) (files : List JsFile) :
    (∀ f ∈ (addFiles s files).uploadedFiles,
        f ∈ s.uploadedFiles ∨ isValidPdfFile f = true) ∧
    (files ≠ [] → (∀ f ∈ files, isValidPdfFile f = false) →
      (addFiles s files).uploadedFiles = s.uploadedFiles ∧
      (addFiles s files).uploadStatus
        = some ⟨"error", "Por favor, selecciona solo archivos PDF"⟩) := by
  constructor
  · intro f hf
    rcases addFiles_uploadedFiles s files with h | h
    · exact Or.inl (h ▸ hf)
    · rw [h] at hf
      rcases mem_foldl_pushUnlessDuplicate _ _ _ hf with h1 | h1
      · exact Or.inl h1
      · exact Or.inr (List.of_mem_filter h1)
  · intro hne hall
    have hfil : files.filter isValidPdfFile = [] := by
      rw [List.filter_eq_nil_iff]
      intro a ha
      simp [hall a ha]
    have hlen : 0 < files.length := List.length_pos.mpr hne
    unfold addFiles showStatus
    rw [hfil]
    simp [hlen]

/-- Claim C1 witness for the amended statement, at a single `.txt`
file over the fresh component state. -/
theorem claim_C1_amended_witness :
    (addFiles initDPState [⟨"a.txt", "text/plain", 3⟩]).uploadedFiles
        = initDPState.uploadedFiles ∧
    (addFiles initDPState [⟨"a.txt", "text/plain", 3⟩]).uploadStatus
        = some ⟨"error", "Por favor, selecciona solo archivos PDF"⟩ :=
  (claim_C1_amended initDPState [⟨"a.txt", "text/plain", 3⟩]).2
    (by decide) (by decide)

/-- Claim C2: evaluated at a state with exactly one pending file,
`uploadFiles` does POST once to `{apiUrl}/upload`, but it carries the
file under the multipart field `files` — not the field `file` (with
optional description) that the claim, the spec contract and the
component documentation of the repository prescribe for the
single-file endpoint. -/
theorem claim_C2_single_upload_field :
    (uploadFilesRequest
        { initDPState with uploadedFiles := [⟨"doc.pdf", "application/pdf", 100⟩] }).2
      = some ⟨"/api/upload", [⟨"files", ⟨"doc.pdf", "application/pdf", 100⟩⟩]⟩ ∧
    ∀ e ∈ [FormEntry.mk "files" ⟨"doc.pdf", "application/pdf", 100⟩], e.field ≠ "file" := by
  constructor
  · decide
  · decide

theorem sendMessageStart_fst_config (s : ChatState) :
    ((sendMessageStart s).1).model = s.model ∧
    ((sendMessageStart s).1).maxChunks = s.maxChunks ∧
    ((sendMessageStart s).1).temperature = s.temperature ∧
    ((sendMessageStart s).1).selectedFileId = s.selectedFileId ∧
    ((sendMessageStart s).1).apiUrl = s.apiUrl := by
  simp only [sendMessageStart]
  split <;> exact ⟨rfl, rfl, rfl, rfl, rfl⟩

theorem sendMessageStep_config (s : ChatState) (o : ChatOutcome) :
    (sendMessageStep s o).model = s.model ∧
    (sendMessageStep s o).maxChunks = s.maxChunks ∧
    (sendMessageStep s o).temperature = s.temperature ∧
    (sendMessageStep s o).selectedFileId = s.selectedFileId ∧
    (sendMessageStep s o).apiUrl = s.apiUrl := by
  have hc := sendMessageStart_fst_config s
  unfold sendMessageStep
  rcases hs : sendMessageStart s with ⟨s1, req⟩
  rw [hs] at hc
  rcases req with _ | b
  · exact hc
  · cases o <;>
      simpa [sendMessageSuccess, sendMessageHttpError, sendMessageNetworkError] using hc

/-- Every reachable Chat state still carries the pinned defaults of
`data()`: the model, max_chunks, temperature, the API base, and no
document filter (nothing in the component ever sets `selectedFileId`). -/
theorem chatReachable_config {s : ChatState} (h : ChatReachable s) :
    s.model = "mistral:7b-instruct" ∧ s.maxChunks = 5 ∧ s.temperature = 7/10 ∧
    s.selectedFileId = none ∧ s.apiUrl = "/api" := by
  induction h with
  | init => exact ⟨rfl, rfl, rfl, rfl, rfl⟩
  | type s text h ih => exact ih
  | step s o h ih =>
    have hc := sendMessageStep_config s o
    exact ⟨hc.1.trans ih.1, hc.2.1.trans ih.2.1, hc.2.2.1.trans ih.2.2.1,
      hc.2.2.2.1.trans ih.2.2.2.1, hc.2.2.2.2.trans ih.2.2.2.2⟩

/-- When `sendMessageStart` issues a request, it is exactly the state
update and body the source constructs. -/
theorem sendMessageStart_eq_some {s s1 : ChatState} {body : ChatRequestBody}
    (h : sendMessageStart s = (s1, some body)) :
    (trimJs s.currentMessage == "" || s.loading) = false ∧
    s1 = { s with
            currentMessage := ""
            messages := s.messages ++ [mkUserMessage (trimJs s.currentMessage)]
            loading := true } ∧
    body = chatRequestBody s1 (trimJs s.currentMessage) := by
  unfold sendMessageStart at h
  split at h
  · simp at h
  · rename_i hguard
    obtain ⟨h1, h2⟩ := Prod.mk.injEq .. ▸ h
    refine ⟨by simpa using hguard, h1.symm, ?_⟩
    have h3 := Option.some.inj h2
    rw [← h3, ← h1]

/-- Claim C3: every request body sent by `sendMessage` from a reachable
Chat state carries the trimmed user question, the pinned default model
`mistral:7b-instruct`, `max_chunks = 5` and `temperature = 0.7`, and a
`file_id` field exactly when a (truthy) document filter is set — never,
in reachable states, since nothing sets `selectedFileId`. -/
theorem claim_C3_chat_request_defaults (s s1 : ChatState) (body : ChatRequestBody)
    (hr : ChatReachable s) (h : sendMessageStart s = (s1, some body)) :
    body.question = trimJs s.currentMessage ∧
    body.model = "mistral:7b-instruct" ∧
    body.max_chunks = 5 ∧
    body.temperature = 7/10 ∧
    (body.file_id.isSome ↔ ∃ fid, s.selectedFileId = some fid ∧ fid ≠ "") ∧
    body.file_id = none := by
  obtain ⟨hguard, hs1, hbody⟩ := sendMessageStart_eq_some h
  obtain ⟨hm, hk, ht, hsel, _⟩ := chatReachable_config hr
  have hsel1 : s1.selectedFileId = none := by rw [hs1]; exact hsel
  have hbody2 : body =
      { question := trimJs s.currentMessage
        model := s1.model
        max_chunks := s1.maxChunks
        temperature := s1.temperature
        file_id := none } := by
    rw [hbody]; unfold chatRequestBody; rw [hsel1]
  subst hbody2
  refine ⟨rfl, ?_, ?_, ?_, ?_, rfl⟩
  · rw [hs1]; exact hm
  · rw [hs1]; exact hk
  · rw [hs1]; exact ht
  · simp [hsel]

/-- The typed-in state used to instantiate the C3 theorem. -/
def c3State : ChatState := { initChatState with currentMessage := "hola" }

/-- The state of `sendMessage` just after issuing the C3 request. -/
def c3Mid : ChatState :=
  { initChatState with
      currentMessage := ""
      messages := initChatState.messages ++ [mkUserMessage ("hola")]
      loading := true }

/-- The request body `sendMessage` issues from `c3State`. -/
def c3Body : ChatRequestBody :=
  { question := "hola", model := "mistral:7b-instruct", max_chunks := 5,
    temperature := 7/10, file_id := none }

/-- Claim C3 witness: from the mounted state after typing `hola`,
`sendMessage` issues a request and the theorem instantiates at it. -/
theorem claim_C3_chat_request_defaults_witness :
    c3Body.question = trimJs c3State.currentMessage ∧
    c3Body.model = "mistral:7b-instruct" ∧
    c3Body.max_chunks = 5 ∧
    c3Body.temperature = 7/10 ∧
    (c3Body.file_id.isSome ↔ ∃ fid, c3State.selectedFileId = some fid ∧ fid ≠ "") ∧
    c3Body.file_id = none :=
  claim_C3_chat_request_defaults c3State c3Mid c3Body
    (ChatReachable.type initChatState "hola" ChatReachable.init)
    rfl

/-- Claim C4: when a chat call fails with an HTTP error status, the
message list grows by the user message and exactly one message of type
`error` (no assistant message, hence never an empty answer in place of
the fault), and the default explanations for the three backend fault
kinds 404, 400 and 503 are pairwise distinct. -/
theorem claim_C4_chat_fault_surfacing (s s1 : ChatState) (body : ChatRequestBody)
    (status : Nat) (detail : String)
    (h : sendMessageStart s = (s1, some body)) :
    (sendMessageHttpError s1 status detail).messages
      = s.messages ++
        [mkUserMessage (trimJs s.currentMessage), mkChatErrorMessage status detail] ∧
    (([mkUserMessage (trimJs s.currentMessage), mkChatErrorMessage status detail].filter
        (fun m => m.type == "error")).length = 1) ∧
    (([mkUserMessage (trimJs s.currentMessage), mkChatErrorMessage status detail].filter
        (fun m => m.type == "assistant")).length = 0) ∧
    chatErrorMessage 404 "" ≠ chatErrorMessage 400 "" ∧
    chatErrorMessage 404 "" ≠ chatErrorMessage 503 "" ∧
    chatErrorMessage 400 "" ≠ chatErrorMessage 503 "" := by
  obtain ⟨hguard, hs1, hbody⟩ := sendMessageStart_eq_some h
  refine ⟨?_, ?_, ?_, by decide, by decide, by decide⟩
  · rw [hs1]
    simp [sendMessageHttpError]
  · simp [mkUserMessage, mkChatErrorMessage, List.filter]
  · simp [mkUserMessage, mkChatErrorMessage, List.filter]

/-- The typed-in state used to instantiate the C4 theorem. -/
def c4State : ChatState := { initChatState with currentMessage := "hola" }

/-- The state of `sendMessage` just after issuing the C4 request. -/
def c4Mid : ChatState :=
  { initChatState with
      currentMessage := ""
      messages := initChatState.messages ++ [mkUserMessage ("hola")]
      loading := true }

/-- The request body `sendMessage` issues from `c4State`. -/
def c4Body : ChatRequestBody :=
  { question := "hola", model := "mistral:7b-instruct", max_chunks := 5,
    temperature := 7/10, file_id := none }

/-- Claim C4 witness: a 404 with no backend detail, after typing
`hola` in the mounted state. -/
theorem claim_C4_chat_fault_surfacing_witness :
    (sendMessageHttpError c4Mid 404 "").messages
      = c4State.messages ++
        [mkUserMessage (trimJs c4State.currentMessage), mkChatErrorMessage 404 ""] ∧
    (([mkUserMessage (trimJs c4State.currentMessage), mkChatErrorMessage 404 ""].filter
        (fun m => m.type == "error")).length = 1) ∧
    (([mkUserMessage (trimJs c4State.currentMessage), mkChatErrorMessage 404 ""].filter
        (fun m => m.type == "assistant")).length = 0) ∧
    chatErrorMessage 404 "" ≠ chatErrorMessage 400 "" ∧
    chatErrorMessage 404 "" ≠ chatErrorMessage 503 "" ∧
    chatErrorMessage 400 "" ≠ chatErrorMessage 503 "" :=
  claim_C4_chat_fault_surfacing c4State c4Mid c4Body 404 "" rfl

/-- The `results.forEach` fold of `uploadFiles` collects exactly the
successes (in response order) and counts successes and failures. -/
theorem foldl_multiStep (now : String) (results : List UploadResult) (acc : MultiAcc) :
    results.foldl (multiStep now) acc
      = ⟨acc.uploadedDocs ++ (results.filter (fun r => r.success)).map (resultToDoc now),
         acc.successCount + (results.filter (fun r => r.success)).length,
         acc.failedCount + (results.filter (fun r => !r.success)).length⟩ := by
  induction results generalizing acc with
  | nil => simp
  | cons r rs ih =>
    rw [List.foldl_cons, ih]
    unfold multiStep
    by_cases hr : r.success
    · simp [hr, List.filter_cons, List.append_assoc]
      omega
    · simp [hr, List.filter_cons]
      omega

/-- The question field of the request body is always the message the
caller passed in, whatever the filter state. -/
theorem chatRequestBody_question (s : ChatState) (q : String) :
    (chatRequestBody s q).question = q := by
  unfold chatRequestBody
  cases s.selectedFileId
  · rfl
  · dsimp only
    split <;> rfl

/-- `uploadOutcomeStatus` only sets the status banner; every other
field of the state passes through. -/
theorem uploadOutcomeStatus_fields (s : DPState) (a b : Nat) :
    (uploadOutcomeStatus s a b).uploadedFiles = s.uploadedFiles ∧
    (uploadOutcomeStatus s a b).processedDocuments = s.processedDocuments ∧
    (uploadOutcomeStatus s a b).uploading = s.uploading := by
  unfold uploadOutcomeStatus showStatus
  split
  · exact ⟨rfl, rfl, rfl⟩
  · split <;> exact ⟨rfl, rfl, rfl⟩

/-- Claim C5: each entry of a multi-file upload response is handled
independently — the successes are appended to `processedDocuments` in
response order, carrying filename, file_id and upload time; failures
only contribute to the failure count; and the pending file list is
cleared exactly when no entry failed. -/
theorem claim_C5_batch_independence (s : DPState) (now : String)
    (results : List UploadResult) :
    (uploadFilesHandleMulti s now results).processedDocuments
      = s.processedDocuments ++
          (results.filter (fun r => r.success)).map (resultToDoc now) ∧
    (uploadFilesHandleMulti s now results).uploadedFiles
      = (if (results.filter (fun r => !r.success)).length = 0 then []
         else s.uploadedFiles) ∧
    (uploadFilesHandleMulti s now results).uploading = false := by
  by_cases hf : results.filter (fun r => !r.success) = [] <;>
    by_cases hs0 : results.filter (fun r => r.success) = [] <;>
      simp [uploadFilesHandleMulti, clearFiles, uploadOutcomeStatus, showStatus,
        foldl_multiStep, hf, hs0, Nat.pos_iff_ne_zero, List.length_eq_zero]

/-- Claim C6: a successful chat response yields one assistant message
whose `sources` are exactly the response's sources, unchanged and in
the same order (empty when the field is absent), and every source line
the template renders shows that source's filename and relevance score
in the stored order. -/
theorem claim_C6_sources_preserved (s : ChatState) (resp : ChatResponseData) :
    (sendMessageSuccess s resp).messages = s.messages ++ [mkAssistantMessage resp] ∧
    (mkAssistantMessage resp).sources = resp.sources.getD [] ∧
    (mkAssistantMessage resp).type = "assistant" ∧
    renderedSources (mkAssistantMessage resp)
      = (resp.sources.getD []).map (fun src => (src.filename, src.relevance_score)) := by
  refine ⟨rfl, rfl, rfl, ?_⟩
  simp [renderedSources, mkAssistantMessage, renderSourceLine]

/-- Claim C7: `sendMessage` on an empty or whitespace-only current
message issues no request and leaves the whole component state
unchanged; and every request it does issue carries the trimmed,
non-empty question. -/
theorem claim_C7_nonempty_question (s : ChatState) :
    (trimJs s.currentMessage = "" → sendMessageStart s = (s, none)) ∧
    (∀ s1 body, sendMessageStart s = (s1, some body) →
      body.question = trimJs s.currentMessage ∧ body.question ≠ "") := by
  constructor
  · intro h
    unfold sendMessageStart
    rw [if_pos]
    simp [h]
  · intro s1 body h
    obtain ⟨hguard, _, hbody⟩ := sendMessageStart_eq_some h
    have hne : trimJs s.currentMessage ≠ "" := by
      intro hcontra
      rw [hcontra] at hguard
      simp at hguard
    constructor
    · rw [hbody, chatRequestBody_question]
    · rw [hbody, chatRequestBody_question]; exact hne

/-- Claim C7 witness: a whitespace-only message is a no-op, and the
request issued after typing `hola` carries the non-empty question. -/
theorem claim_C7_nonempty_question_witness :
    sendMessageStart { initChatState with currentMessage := "  " }
      = ({ initChatState with currentMessage := "  " }, none) ∧
    (c3Body.question = trimJs c3State.currentMessage ∧ c3Body.question ≠ "") :=
  ⟨(claim_C7_nonempty_question { initChatState with currentMessage := "  " }).1 rfl,
   (claim_C7_nonempty_question c3State).2 c3Mid c3Body rfl⟩

/-- The user-visible operations on the pending file list of
DocumentProcessor. -/
inductive DPOp where
  | add (files : List JsFile)
  | remove (index : Nat)
  | clear
deriving Repr

/-- Apply one operation to the component state. -/
def applyDPOp (s : DPState) (op : DPOp) : DPState :=
  match op with
  | .add files => addFiles s files
  | .remove index => removeFile s index
  | .clear => clearFiles s

/-- Run a sequence of operations from the fresh component state. -/
def runDPOps (ops : List DPOp) : DPState :=
  ops.foldl applyDPOp initDPState

/-- Two pending entries are distinct when they differ in name or size. -/
def distinctNameSize (f g : JsFile) : Prop :=
  ¬(f.name = g.name ∧ f.size = g.size)

theorem pushUnlessDuplicate_pairwise {acc : List JsFile} {f : JsFile}
    (h : acc.Pairwise distinctNameSize) :
    (pushUnlessDuplicate acc f).Pairwise distinctNameSize := by
  unfold pushUnlessDuplicate
  split
  · exact h
  · rename_i hdup
    rw [List.pairwise_append]
    refine ⟨h, List.pairwise_singleton _ _, ?_⟩
    intro g hg b hb
    rw [List.mem_singleton] at hb
    subst hb
    intro ⟨hname, hsize⟩
    exact hdup (by
      rw [List.any_eq_true]
      exact ⟨g, hg, by simp [hname, hsize]⟩)

theorem foldl_pushUnlessDuplicate_pairwise (l : List JsFile) {acc : List JsFile}
    (h : acc.Pairwise distinctNameSize) :
    (l.foldl pushUnlessDuplicate acc).Pairwise distinctNameSize := by
  induction l generalizing acc with
  | nil => exact h
  | cons x xs ih => exact ih (pushUnlessDuplicate_pairwise h)

theorem addFiles_pairwise {s : DPState} (files : List JsFile)
    (h : s.uploadedFiles.Pairwise distinctNameSize) :
    (addFiles s files).uploadedFiles.Pairwise distinctNameSize := by
  rcases addFiles_uploadedFiles s files with heq | heq <;> rw [heq]
  · exact h
  · exact foldl_pushUnlessDuplicate_pairwise _ h

theorem applyDPOp_pairwise (s : DPState) (op : DPOp)
    (h : s.uploadedFiles.Pairwise distinctNameSize) :
    (applyDPOp s op).uploadedFiles.Pairwise distinctNameSize := by
  cases op with
  | add files => exact addFiles_pairwise files h
  | remove index =>
    exact h.sublist (List.eraseIdx_sublist _ _)
  | clear => exact List.Pairwise.nil

/-- Claim C8: after any sequence of `addFiles`, `removeFile` and
`clearFiles` operations from the empty list, no two entries of the
pending list agree on both name and size — `addFiles` never adds a
file whose `(name, size)` pair already occurs. -/
theorem claim_C8_pending_uniqueness (ops : List DPOp) :
    (runDPOps ops).uploadedFiles.Pairwise distinctNameSize := by
  have aux : ∀ (l : List DPOp) (s : DPState),
      s.uploadedFiles.Pairwise distinctNameSize →
      (l.foldl applyDPOp s).uploadedFiles.Pairwise distinctNameSize := by
    intro l
    induction l with
    | nil => intro s h; exact h
    | cons op rest ih =>
      intro s h
      exact ih _ (applyDPOp_pairwise s op h)
  exact aux ops initDPState List.Pairwise.nil

/-- Claim C9: while an upload is in flight (`uploading = true`) another
`uploadFiles` call is a no-op that issues no request; when a request is
issued the flag is already set; and every response or error handler
clears it.  Symmetrically for `loading` and `sendMessage`.  Hence the
component never has two concurrent upload requests nor two concurrent
chat requests. -/
theorem claim_C9_single_inflight :
    (∀ s : DPState, s.uploading = true → uploadFilesRequest s = (s, none)) ∧
    (∀ (s s1 : DPState) (req : UploadRequest),
      uploadFilesRequest s = (s1, some req) → s1.uploading = true) ∧
    (∀ (s : DPState) (now : String) (results : List UploadResult),
      (uploadFilesHandleMulti s now results).uploading = false) ∧
    (∀ (s : DPState) (now : String) (data : UploadResult),
      (uploadFilesHandleSingle s now data).uploading = false) ∧
    (∀ (s : DPState) (status : Nat) (detail : String),
      (uploadFilesHandleError s status detail).uploading = false) ∧
    (∀ c : ChatState, c.loading = true → sendMessageStart c = (c, none)) ∧
    (∀ (c c1 : ChatState) (body : ChatRequestBody),
      sendMessageStart c = (c1, some body) → c1.loading = true) ∧
    (∀ (c : ChatState) (resp : ChatResponseData),
      (sendMessageSuccess c resp).loading = false) ∧
    (∀ (c : ChatState) (status : Nat) (detail : String),
      (sendMessageHttpError c status detail).loading = false) ∧
    (∀ c : ChatState, (sendMessageNetworkError c).loading = false) := by
  refine ⟨?_, ?_, ?_, ?_, ?_, ?_, ?_, ?_, ?_, ?_⟩
  · intro s h
    unfold uploadFilesRequest
    rw [if_pos]
    simp [h]
  · intro s s1 req h
    unfold uploadFilesRequest at h
    split at h
    · simp at h
    · obtain ⟨h1, h2⟩ := Prod.mk.injEq .. ▸ h
      rw [← h1]
  · intro s now results
    rfl
  · intro s now data
    rfl
  · intro s status detail
    rfl
  · intro c h
    unfold sendMessageStart
    rw [if_pos]
    simp [h]
  · intro c c1 body h
    obtain ⟨_, hs1, _⟩ := sendMessageStart_eq_some h
    rw [hs1]
  · intro c resp
    rfl
  · intro c status detail
    rfl
  · intro c
    rfl

/-- Claim C9 witness: a busy component ignores a second call, and a
freshly issued request has the flag set. -/
theorem claim_C9_single_inflight_witness :
    uploadFilesRequest
        { initDPState with
            uploadedFiles := [⟨"doc.pdf", "application/pdf", 9⟩], uploading := true }
      = ({ initDPState with
            uploadedFiles := [⟨"doc.pdf", "application/pdf", 9⟩], uploading := true },
         none) ∧
    ({ initDPState with
        uploadedFiles := [⟨"doc.pdf", "application/pdf", 9⟩],
        uploading := true, uploadStatus := none } : DPState).uploading = true ∧
    sendMessageStart { initChatState with currentMessage := "hola", loading := true }
      = ({ initChatState with currentMessage := "hola", loading := true }, none) ∧
    c3Mid.loading = true :=
  ⟨claim_C9_single_inflight.1 _ rfl,
   claim_C9_single_inflight.2.1
      { initDPState with uploadedFiles := [⟨"doc.pdf", "application/pdf", 9⟩] }
      { initDPState with
          uploadedFiles := [⟨"doc.pdf", "application/pdf", 9⟩],
          uploading := true, uploadStatus := none }
      ⟨"/api/upload", [⟨"files", ⟨"doc.pdf", "application/pdf", 9⟩⟩]⟩
      (by decide),
   claim_C9_single_inflight.2.2.2.2.2.1 _ rfl,
   claim_C9_single_inflight.2.2.2.2.2.2.1 c3State c3Mid c3Body rfl⟩

/-- Claim C10: `currentView` starts as `chat`; every reachable value is
`chat` or `documents`; and exactly one of the Chat and
DocumentProcessor views is rendered in every reachable state. -/
theorem claim_C10_view_invariant (v : String) (h : AppReachable v) :
    initialCurrentView = "chat" ∧
    (v = "chat" ∨ v = "documents") ∧
    rendersChat v ≠ rendersDocuments v := by
  induction h with
  | init => exact ⟨rfl, Or.inl rfl, by decide⟩
  | change v p h hp ih =>
    simp only [sidebarPayloads, List.mem_cons, List.not_mem_nil, or_false] at hp
    refine ⟨rfl, hp, ?_⟩
    rcases hp with hp | hp <;> subst hp <;>
      simp [rendersChat, rendersDocuments, changeView]

/-- Claim C10 witness: after the Sidebar emits `documents` once. -/
theorem claim_C10_view_invariant_witness :
    initialCurrentView = "chat" ∧
    (("documents" : String) = "chat" ∨ ("documents" : String) = "documents") ∧
    rendersChat "documents" ≠ rendersDocuments "documents" :=
  claim_C10_view_invariant "documents"
    (AppReachable.change initialCurrentView "documents" AppReachable.init (by decide))

end LegalBot
